import Mathlib

/-
Verification development for database_utils.py, a data-preparation and
hypothesis-testing pipeline over the IDEB (school outcomes) and ENEM
(student survey) tables.  The pipeline stages are shallowly embedded as
executable Lean functions over lists of records:

* PrepareIdeb  — the Cleaner: column selection/rename, dropping rows with a
  null school key, normalising the sentinel "-" to null, and rewriting the
  key by stripping its last two characters (Python s[:-2]).
* GetMerged    — the Merger/Imputer: in-place sort of both inputs by key,
  left join on CO_ESCOLA, dropping IDEB and NT_PADRONIZADA, median/mode/
  grouped-median imputation, stringify and float cast.
* NormalityTest — the normality sweep over numeric columns, with the two
  library tests passed in as function parameters.
* NonParamTest — the group-comparison dispatch on the number k of distinct
  category values.

Nullable cells are Option ℚ (none plays the role of NaN), category and key
cells are String.  The underlying statistical routines (shapiro, normaltest,
mannwhitneyu, kruskal) are external to the program and enter the embedding
as opaque-to-us function parameters or as a reified call description.
-/

/-! ## Generic list utilities used by several stages -/

/-- First-occurrence deduplication with an accumulator of already seen
values; mirrors the order produced by pandas Series.unique(). -/
def pdUniqueAux [DecidableEq α] (seen : List α) : List α → List α
  | [] => []
  | a :: l => if a ∈ seen then pdUniqueAux seen l else a :: pdUniqueAux (a :: seen) l

/-- Distinct values of a list in order of first appearance
(pandas Series.unique(); its length is Series.nunique() for null-free data). -/
def pdUnique [DecidableEq α] (l : List α) : List α := pdUniqueAux [] l

theorem mem_pdUniqueAux [DecidableEq α] (l : List α) :
    ∀ (seen : List α) (x : α), x ∈ pdUniqueAux seen l ↔ x ∈ l ∧ x ∉ seen := by
  induction l with
  | nil => intro seen x; simp [pdUniqueAux]
  | cons a l ih =>
    intro seen x
    by_cases h : a ∈ seen
    · simp only [pdUniqueAux, if_pos h, ih, List.mem_cons]
      constructor
      · rintro ⟨hx, hs⟩; exact ⟨Or.inr hx, hs⟩
      · rintro ⟨hx | hx, hs⟩
        · exact absurd (hx ▸ h) hs
        · exact ⟨hx, hs⟩
    · simp only [pdUniqueAux, if_neg h, List.mem_cons, ih]
      constructor
      · rintro (rfl | ⟨hx, hs⟩)
        · exact ⟨Or.inl rfl, h⟩
        · exact ⟨Or.inr hx, fun hs2 => hs (Or.inr hs2)⟩
      · rintro ⟨rfl | hx, hs⟩
        · exact Or.inl rfl
        · by_cases hxa : x = a
          · exact Or.inl hxa
          · exact Or.inr ⟨hx, fun h2 => h2.elim hxa hs⟩

theorem nodup_pdUniqueAux [DecidableEq α] (l : List α) :
    ∀ seen : List α, (pdUniqueAux seen l).Nodup := by
  induction l with
  | nil => intro seen; simp [pdUniqueAux]
  | cons a l ih =>
    intro seen
    by_cases h : a ∈ seen
    · simpa only [pdUniqueAux, if_pos h] using ih seen
    · simp only [pdUniqueAux, if_neg h, List.nodup_cons]
      refine ⟨fun hmem => ?_, ih (a :: seen)⟩
      exact ((mem_pdUniqueAux l (a :: seen) a).mp hmem).2 (List.mem_cons_self a seen)

theorem pdUnique_nodup [DecidableEq α] (l : List α) : (pdUnique l).Nodup :=
  nodup_pdUniqueAux l []

theorem mem_pdUnique [DecidableEq α] {l : List α} {x : α} :
    x ∈ pdUnique l ↔ x ∈ l := by
  simp [pdUnique, mem_pdUniqueAux]

theorem pdUnique_ne_nil [DecidableEq α] {l : List α} (h : l ≠ []) : pdUnique l ≠ [] := by
  cases l with
  | nil => exact absurd rfl h
  | cons a l => simp [pdUnique, pdUniqueAux]

/-- Insertion of an element into a list, before the first element it
compares le to; building block of the stable sort below. -/
def insertSorted (le : α → α → Bool) (a : α) : List α → List α
  | [] => [a]
  | b :: l => if le a b then a :: b :: l else b :: insertSorted le a l

/-- Stable insertion sort, modelling DataFrame.sort_values (the result is
ordered by le; relative order of equal keys is an implementation detail of
the library sort and is fixed here as the stable one). -/
def pySortBy (le : α → α → Bool) (l : List α) : List α := l.foldr (insertSorted le) []

theorem insertSorted_perm (le : α → α → Bool) (a : α) (l : List α) :
    (insertSorted le a l).Perm (a :: l) := by
  induction l with
  | nil => exact List.Perm.refl _
  | cons b t ih =>
    by_cases h : le a b = true
    · simp only [insertSorted, if_pos h]
      exact List.Perm.refl _
    · simp only [insertSorted, if_neg h]
      exact (ih.cons b).trans (List.Perm.swap a b t)

theorem pySortBy_perm (le : α → α → Bool) (l : List α) : (pySortBy le l).Perm l := by
  induction l with
  | nil => exact List.Perm.refl _
  | cons a t ih =>
    have : pySortBy le (a :: t) = insertSorted le a (pySortBy le t) := rfl
    rw [this]
    exact (insertSorted_perm le a (pySortBy le t)).trans (ih.cons a)

theorem mem_insertSorted (le : α → α → Bool) (a x : α) (l : List α) :
    x ∈ insertSorted le a l ↔ x = a ∨ x ∈ l := by
  rw [(insertSorted_perm le a l).mem_iff, List.mem_cons]

theorem mem_pySortBy (le : α → α → Bool) (x : α) (l : List α) :
    x ∈ pySortBy le l ↔ x ∈ l :=
  (pySortBy_perm le l).mem_iff

theorem insertSorted_pairwise (le : α → α → Bool)
    (total : ∀ a b, le a b = true ∨ le b a = true)
    (tr : ∀ {a b c}, le a b = true → le b c = true → le a c = true)
    (a : α) (l : List α) (h : l.Pairwise (fun x y => le x y = true)) :
    (insertSorted le a l).Pairwise (fun x y => le x y = true) := by
  induction l with
  | nil => simp [insertSorted]
  | cons b t ih =>
    rcases List.pairwise_cons.mp h with ⟨hb, ht⟩
    by_cases hab : le a b = true
    · simp only [insertSorted, if_pos hab]
      refine List.pairwise_cons.mpr ⟨?_, h⟩
      intro x hx
      rcases List.mem_cons.mp hx with rfl | hx
      · exact hab
      · exact tr hab (hb x hx)
    · simp only [insertSorted, if_neg hab]
      refine List.pairwise_cons.mpr ⟨?_, ih ht⟩
      intro x hx
      rcases (mem_insertSorted le a x t).mp hx with rfl | hx
      · rcases total x b with h1 | h1
        · exact absurd h1 hab
        · exact h1
      · exact hb x hx

theorem pySortBy_pairwise (le : α → α → Bool)
    (total : ∀ a b, le a b = true ∨ le b a = true)
    (tr : ∀ {a b c}, le a b = true → le b c = true → le a c = true)
    (l : List α) : (pySortBy le l).Pairwise (fun x y => le x y = true) := by
  induction l with
  | nil => simp [pySortBy]
  | cons a t ih => exact insertSorted_pairwise le total tr a (pySortBy le t) ih

/-! ## Lexicographic string order by code point (Python string comparison) -/

/-- Lexicographic less-or-equal on char lists by code point. -/
def strLeB : List Char → List Char → Bool
  | [], _ => true
  | _ :: _, [] => false
  | a :: as, b :: bs =>
    if a.toNat < b.toNat then true
    else if b.toNat < a.toNat then false
    else strLeB as bs

/-- Lexicographic less-or-equal on strings, the order used for the
sort_values key column. -/
def strLe (a b : String) : Bool := strLeB a.data b.data

theorem strLeB_total : ∀ as bs : List Char, strLeB as bs = true ∨ strLeB bs as = true
  | [], _ => Or.inl rfl
  | _ :: _, [] => Or.inr rfl
  | a :: as, b :: bs => by
    simp only [strLeB]
    rcases Nat.lt_trichotomy a.toNat b.toNat with h | h | h
    · left
      simp [h]
    · have h2 : ¬ a.toNat < b.toNat := by omega
      have h3 : ¬ b.toNat < a.toNat := by omega
      simp only [if_neg h2, if_neg h3]
      exact strLeB_total as bs
    · right
      simp [h]

theorem strLeB_trans :
    ∀ as bs cs : List Char,
      strLeB as bs = true → strLeB bs cs = true → strLeB as cs = true
  | [], _, _ => fun _ _ => rfl
  | _ :: _, [], _ => fun h _ => by simp [strLeB] at h
  | _ :: _, _ :: _, [] => fun _ h => by simp [strLeB] at h
  | a :: as, b :: bs, c :: cs => fun h1 h2 => by
    simp only [strLeB] at h1 h2 ⊢
    by_cases hab : a.toNat < b.toNat <;> by_cases hba : b.toNat < a.toNat <;>
      by_cases hbc : b.toNat < c.toNat <;> by_cases hcb : c.toNat < b.toNat <;>
      by_cases hac : a.toNat < c.toNat <;> by_cases hca : c.toNat < a.toNat <;>
      simp only [if_pos, if_neg, hab, hba, hbc, hcb, hac, hca, if_true, if_false] at h1 h2 ⊢ <;>
      first
        | rfl
        | omega
        | exact h1
        | exact h2
        | simp at h1
        | simp at h2
        | (exfalso; omega)
        | exact strLeB_trans as bs cs h1 h2

theorem strLe_total (a b : String) : strLe a b = true ∨ strLe b a = true :=
  strLeB_total a.data b.data

theorem strLe_trans {a b c : String} (h1 : strLe a b = true) (h2 : strLe b c = true) :
    strLe a c = true :=
  strLeB_trans a.data b.data c.data h1 h2

/-! ## The Cleaner: PrepareIdeb -/

/-- Cell of the raw spreadsheet table: a number, a text value (such as the
sentinel "-"), or a missing value (NaN). -/
inductive RawCell where
  | num (q : ℚ)
  | str (s : String)
  | null
deriving DecidableEq, Repr

/-- Row of the raw IDEB spreadsheet restricted to the four selected columns
Codigo da Escola, Unnamed: 12, Unnamed: 15 and IDEB 2017 (N x P); the
claim presupposes a well-formed input in which all four are present. -/
structure RawIdebRow where
  codigoDaEscola : RawCell
  unnamed12 : RawCell
  unnamed15 : RawCell
  idebNxP : RawCell
deriving DecidableEq, Repr

/-- Row of the cleaned IDEB table with the four canonical column names. -/
structure IdebCleanRow where
  CO_ESCOLA : String
  IN_RENDIMENTO : RawCell
  NT_PADRONIZADA : RawCell
  IDEB : RawCell
deriving DecidableEq, Repr

/-- Normalisation of the sentinel "-" to null: Series.replace with
a dash-to-NaN mapping. -/
def replaceDashCell (c : RawCell) : RawCell :=
  if c = RawCell.str ("-") then RawCell.null else c

/-- Python str() of a cell value, as applied by astype(str); str of NaN is
the text nan. -/
def rawCellStr : RawCell → String
  | RawCell.num q => toString q
  | RawCell.str s => s
  | RawCell.null => "nan"

/-- Python slice s[:-2]: the first max(len(s)-2, 0) characters; the stop
index len(s)-2 is computed in ℤ and clamped at 0, exactly as Python
interprets a negative stop index. -/
def pySliceDropLast2 (s : String) : String :=
  String.mk (s.data.take (Int.toNat ((s.data.length : Int) - 2)))

/-- Image of one retained raw row under the Cleaner: sentinel replacement
in the three numeric columns and the key rewrite str()[:-2]. -/
def cleanIdebRow (r : RawIdebRow) : IdebCleanRow :=
  { CO_ESCOLA := pySliceDropLast2 (rawCellStr r.codigoDaEscola)
  , IN_RENDIMENTO := replaceDashCell r.unnamed12
  , NT_PADRONIZADA := replaceDashCell r.unnamed15
  , IDEB := replaceDashCell r.idebNxP }

/-- PrepareIdeb: select/rename the four columns, drop the rows whose key is
null, replace the sentinel "-" by null in the three numeric columns and
rewrite the key column by astype(str).str with the last two characters cut. -/
def PrepareIdeb (df : List RawIdebRow) : List IdebCleanRow :=
  (df.filter (fun r => r.codigoDaEscola != RawCell.null)).map cleanIdebRow

theorem replaceDashCell_ne_dash (c : RawCell) :
    replaceDashCell c ≠ RawCell.str ("-") := by
  unfold replaceDashCell
  split
  · intro h
    exact RawCell.noConfusion h
  · assumption

/-- C10: the key-identifier rewrite of the Cleaner is total: for every key
whose string form has n characters it returns the first max(n-2,0)
characters, so a string form of length at most 2 maps to the empty string,
and no input can make the slice fail. -/
theorem cleaner_key_rewrite_total (s : String) :
    pySliceDropLast2 s = String.mk (s.data.take (s.data.length - 2)) ∧
    (pySliceDropLast2 s).data.length = s.data.length - 2 ∧
    (s.data.length ≤ 2 → pySliceDropLast2 s = "") := by
  have hto : Int.toNat ((s.data.length : Int) - 2) = s.data.length - 2 := by omega
  refine ⟨by rw [pySliceDropLast2, hto], ?_, ?_⟩
  · show (s.data.take _).length = _
    rw [hto, List.length_take]
    omega
  · intro h
    have h0 : Int.toNat ((s.data.length : Int) - 2) = 0 := by omega
    rw [pySliceDropLast2, h0, List.take_zero]

/-- Witness for C10 at the concrete keys ab (length 2, giving the empty
string) and abcd (length 4, giving 2 characters). -/
theorem cleaner_key_rewrite_total_witness :
    pySliceDropLast2 ("ab") = "" ∧ (pySliceDropLast2 ("abcd")).data.length = 2 := by
  constructor
  · exact (cleaner_key_rewrite_total ("ab")).2.2 (by decide)
  · exact ((cleaner_key_rewrite_total ("abcd")).2.1).trans (by decide)

/-- C7: on a well-formed raw table the Cleaner output consists exactly of
the four-column projections of the rows whose key identifier is non-null
(so no output row has a null key), and the sentinel "-" appears in none of
the three numeric columns of the output. -/
theorem prepareIdeb_clean (df : List RawIdebRow) (r : IdebCleanRow)
    (hr : r ∈ PrepareIdeb df) :
    (∃ d ∈ df, d.codigoDaEscola ≠ RawCell.null ∧ r = cleanIdebRow d) ∧
    r.IN_RENDIMENTO ≠ RawCell.str ("-") ∧
    r.NT_PADRONIZADA ≠ RawCell.str ("-") ∧
    r.IDEB ≠ RawCell.str ("-") := by
  rcases List.mem_map.mp hr with ⟨d, hd, rfl⟩
  rcases List.mem_filter.mp hd with ⟨hdf, hkey⟩
  refine ⟨⟨d, hdf, ?_, rfl⟩, ?_, ?_, ?_⟩
  · intro h
    rw [h] at hkey
    simp at hkey
  · exact replaceDashCell_ne_dash _
  · exact replaceDashCell_ne_dash _
  · exact replaceDashCell_ne_dash _

/-- Concrete raw IDEB table for the C7 witness: one row with a non-null
key, a sentinel "-" cell and a null cell, and one row with a null key. -/
def rawIdebW : List RawIdebRow :=
  [ { codigoDaEscola := RawCell.str ("123456")
    , unnamed12 := RawCell.str ("-")
    , unnamed15 := RawCell.num 5
    , idebNxP := RawCell.null }
  , { codigoDaEscola := RawCell.null
    , unnamed12 := RawCell.num 3
    , unnamed15 := RawCell.num 4
    , idebNxP := RawCell.num 5 } ]

/-- The single output row of PrepareIdeb on rawIdebW. -/
def idebCleanW : IdebCleanRow :=
  { CO_ESCOLA := "1234"
  , IN_RENDIMENTO := RawCell.null
  , NT_PADRONIZADA := RawCell.num 5
  , IDEB := RawCell.null }

/-- Witness for C7 on the concrete table rawIdebW. -/
theorem prepareIdeb_clean_witness :
    (∃ d ∈ rawIdebW, d.codigoDaEscola ≠ RawCell.null ∧ idebCleanW = cleanIdebRow d) ∧
    idebCleanW.IN_RENDIMENTO ≠ RawCell.str ("-") ∧
    idebCleanW.NT_PADRONIZADA ≠ RawCell.str ("-") ∧
    idebCleanW.IDEB ≠ RawCell.str ("-") :=
  prepareIdeb_clean rawIdebW idebCleanW (by decide)

/-! ## The Analyzer, part 1: NonParamTest -/

/-- Reified call into the external statistics library made by the
NonParamTest dispatch: either the two-sample Mann-Whitney rank test or the
Kruskal-Wallis k-sample rank test on the given list of samples, the latter
with or without an explicit two-sided alternative hypothesis. -/
inductive StatCall where
  | mannwhitneyu (s1 s2 : List (Option ℚ))
  | kruskal (ss : List (List (Option ℚ))) (twoSided : Bool)
deriving DecidableEq, Repr

/-- Number k of distinct values of the categorical column col
(Series.nunique() for a null-free categorical column). -/
def npK (rows : List (Option ℚ × String)) : ℕ := (pdUnique (rows.map Prod.snd)).length

/-- The k samples of NU_NOTA_TOT values built by the sample loop: for i in
range(k), the target values of the rows whose col value is unique()[i]. -/
def npSamples (rows : List (Option ℚ × String)) : List (List (Option ℚ)) :=
  (List.range (npK rows)).map (fun i =>
    (rows.filter (fun r => r.2 == (pdUnique (rows.map Prod.snd)).getD i "")).map Prod.fst)

/-- The hand-enumerated dispatch of NonParamTest mapping the group count k
to a library call with exactly that many sample arguments; no branch exists
for any other k, in which case no test is selected. -/
def npDispatch (k : ℕ) (samples : List (List (Option ℚ))) : Option StatCall :=
  if k = 2 then
    some (StatCall.mannwhitneyu (samples.getD 0 []) (samples.getD 1 []))
  else if k = 3 then
    some (StatCall.kruskal [samples.getD 0 [], samples.getD 1 [], samples.getD 2 []] false)
  else if k = 4 then
    some (StatCall.kruskal [samples.getD 0 [], samples.getD 1 [], samples.getD 2 [],
      samples.getD 3 []] false)
  else if k = 5 then
    some (StatCall.kruskal [samples.getD 0 [], samples.getD 1 [], samples.getD 2 [],
      samples.getD 3 [], samples.getD 4 []] false)
  else if k = 6 then
    some (StatCall.kruskal [samples.getD 0 [], samples.getD 1 [], samples.getD 2 [],
      samples.getD 3 [], samples.getD 4 [], samples.getD 5 []] false)
  else if k = 7 then
    some (StatCall.kruskal [samples.getD 0 [], samples.getD 1 [], samples.getD 2 [],
      samples.getD 3 [], samples.getD 4 [], samples.getD 5 [], samples.getD 6 []] false)
  else if k = 8 then
    some (StatCall.kruskal [samples.getD 0 [], samples.getD 1 [], samples.getD 2 [],
      samples.getD 3 [], samples.getD 4 [], samples.getD 5 [], samples.getD 6 [],
      samples.getD 7 []] false)
  else if k = 17 then
    some (StatCall.kruskal [samples.getD 0 [], samples.getD 1 [], samples.getD 2 [],
      samples.getD 3 [], samples.getD 4 [], samples.getD 5 [], samples.getD 6 [],
      samples.getD 7 [], samples.getD 8 [], samples.getD 9 [], samples.getD 10 [],
      samples.getD 11 [], samples.getD 12 [], samples.getD 13 [], samples.getD 14 [],
      samples.getD 15 [], samples.getD 16 []] true)
  else if k = 27 then
    some (StatCall.kruskal [samples.getD 0 [], samples.getD 1 [], samples.getD 2 [],
      samples.getD 3 [], samples.getD 4 [], samples.getD 5 [], samples.getD 6 [],
      samples.getD 7 [], samples.getD 8 [], samples.getD 9 [], samples.getD 10 [],
      samples.getD 11 [], samples.getD 12 [], samples.getD 13 [], samples.getD 14 [],
      samples.getD 15 [], samples.getD 16 [], samples.getD 17 [], samples.getD 18 [],
      samples.getD 19 [], samples.getD 20 [], samples.getD 21 [], samples.getD 22 [],
      samples.getD 23 [], samples.getD 24 [], samples.getD 25 [], samples.getD 26 []] true)
  else none

/-- NonParamTest over the two-column frame of (NU_NOTA_TOT, col) pairs.
The external library call is a parameter runTest returning (statistic,
p-value).  When the dispatch selected no test, the local variable p of the
source was never assigned, and the verdict line raises Python
UnboundLocalError; this is modelled by the error result. -/
def NonParamTest (runTest : StatCall → ℚ × ℚ) (rows : List (Option ℚ × String))
    (col : String) (alpha : ℚ) : Except String (String × ℚ × String) :=
  match npDispatch (npK rows) (npSamples rows) with
  | none => Except.error "UnboundLocalError: local variable p referenced before assignment"
  | some call =>
    let p := (runTest call).2
    if p > alpha then Except.ok ("Mesma distribuição (H0 não foi rejeitada)", p, col)
    else Except.ok ("Distribuições diferentes (Rejeita-se H0)", p, col)

theorem map_getD_range (l : List β) (d : β) (g : β → γ) :
    ∀ n, l.length = n → (List.range n).map (fun i => g (l.getD i d)) = l.map g := by
  induction l with
  | nil =>
    intro n hn
    subst hn
    rfl
  | cons a t ih =>
    intro n hn
    subst hn
    rw [List.length_cons, List.range_succ_eq_map, List.map_cons, List.map_map]
    have h1 : ((fun i => g ((a :: t).getD i d)) ∘ Nat.succ) = fun i => g (t.getD i d) := by
      funext i
      rfl
    rw [h1, ih t.length rfl]
    rfl

theorem getD_range_map (l : List α) (d : α) (n : ℕ) (h : l.length = n) :
    (List.range n).map (fun i => l.getD i d) = l :=
  (map_getD_range l d id n h).trans (List.map_id l)

theorem npSamples_length (rows : List (Option ℚ × String)) :
    (npSamples rows).length = npK rows := by
  rw [npSamples, List.length_map, List.length_range]

theorem npSamples_eq_map (rows : List (Option ℚ × String)) :
    npSamples rows = (pdUnique (rows.map Prod.snd)).map (fun c =>
      (rows.filter (fun r => r.2 == c)).map Prod.fst) := by
  unfold npSamples
  exact map_getD_range (pdUnique (rows.map Prod.snd)) ""
    (fun c => (rows.filter (fun r => Prod.snd r == c)).map Prod.fst) (npK rows) rfl

theorem sum_filter_lengths [DecidableEq β] (key : α → β) :
    ∀ (cs : List β) (rows : List α), cs.Nodup → (∀ r ∈ rows, key r ∈ cs) →
      ((cs.map (fun c => (rows.filter (fun r => key r == c)).length)).sum = rows.length) := by
  intro cs
  induction cs with
  | nil =>
    intro rows _ hcov
    cases rows with
    | nil => rfl
    | cons r t => exact absurd (hcov r (List.mem_cons_self r t)) (List.not_mem_nil _)
  | cons c cs ih =>
    intro rows hnd hcov
    rcases List.nodup_cons.mp hnd with ⟨hc, hnd2⟩
    have hsplit : rows.length = (rows.filter (fun r => key r == c)).length +
        (rows.filter (fun r => !(key r == c))).length := by
      rw [← List.countP_eq_length_filter, ← List.countP_eq_length_filter]
      simpa using List.length_eq_countP_add_countP (fun r => key r == c) rows
    have hrest : (cs.map (fun d => (rows.filter (fun r => key r == d)).length)).sum =
        (cs.map (fun d => ((rows.filter (fun r => !(key r == c))).filter
          (fun r => key r == d)).length)).sum := by
      refine congrArg List.sum (List.map_congr_left ?_)
      intro d hd
      have hdc : d ≠ c := fun h => hc (h ▸ hd)
      have hfil : rows.filter (fun r => key r == d) =
          (rows.filter (fun r => !(key r == c))).filter (fun r => key r == d) := by
        rw [List.filter_filter]
        refine (List.filter_congr ?_).symm
        intro r _
        by_cases hkd : key r = d
        · have hkc : key r ≠ c := fun h => hdc (by rw [← hkd, h])
          simp [hkd, hkc, hdc]
        · simp [hkd]
      rw [hfil]
    have hcov2 : ∀ r ∈ rows.filter (fun r => !(key r == c)), key r ∈ cs := by
      intro r hr
      rcases List.mem_filter.mp hr with ⟨hr1, hr2⟩
      rcases List.mem_cons.mp (hcov r hr1) with h | h
      · simp [h] at hr2
      · exact h
    rw [List.map_cons, List.sum_cons, hrest, ih _ hnd2 hcov2, ← hsplit]

/-- C1: NonParamTest partitions the rows into k samples, one per distinct
category value (k = nunique of col), and the dispatch selects the test by k
exactly as enumerated: k = 2 gives the two-sample Mann-Whitney call on the
two samples, each k in 3..8, 17, 27 gives a Kruskal-Wallis call with
exactly those k samples as arguments, with the two-sided alternative
hypothesis passed exactly for k = 17 and k = 27. -/
theorem nonParamTest_dispatch (rows : List (Option ℚ × String)) :
    (npSamples rows).length = npK rows ∧
    ((npSamples rows).map List.length).sum = rows.length ∧
    (npK rows = 2 → ∃ s1 s2, npSamples rows = [s1, s2] ∧
      npDispatch (npK rows) (npSamples rows) = some (StatCall.mannwhitneyu s1 s2)) ∧
    (npK rows ∈ ([3, 4, 5, 6, 7, 8] : List ℕ) →
      npDispatch (npK rows) (npSamples rows) =
        some (StatCall.kruskal (npSamples rows) false)) ∧
    ((npK rows = 17 ∨ npK rows = 27) →
      npDispatch (npK rows) (npSamples rows) =
        some (StatCall.kruskal (npSamples rows) true)) := by
  have hlen : (npSamples rows).length = npK rows := npSamples_length rows
  have hpart : ((npSamples rows).map List.length).sum = rows.length := by
    rw [npSamples_eq_map, List.map_map]
    have hcomp : (List.length ∘ fun c =>
        (rows.filter (fun r => r.2 == c)).map Prod.fst) =
        fun c => (rows.filter (fun r => r.2 == c)).length := by
      funext c
      simp [List.length_map]
    rw [hcomp]
    exact sum_filter_lengths Prod.snd (pdUnique (rows.map Prod.snd)) rows
      (pdUnique_nodup _) (fun r hr => mem_pdUnique.mpr (List.mem_map_of_mem Prod.snd hr))
  have hfull : ∀ n, npK rows = n →
      (List.range n).map (fun i => (npSamples rows).getD i []) = npSamples rows :=
    fun n hn => getD_range_map (npSamples rows) [] n (hlen.trans hn)
  refine ⟨hlen, hpart, ?_, ?_, ?_⟩
  · intro h2
    refine ⟨(npSamples rows).getD 0 [], (npSamples rows).getD 1 [], (hfull 2 h2).symm, ?_⟩
    rw [h2]
    rfl
  · intro hmem
    simp only [List.mem_cons, List.not_mem_nil, or_false] at hmem
    rcases hmem with h | h | h | h | h | h
    · rw [h]
      exact congrArg (fun l => some (StatCall.kruskal l false)) (hfull 3 h)
    · rw [h]
      exact congrArg (fun l => some (StatCall.kruskal l false)) (hfull 4 h)
    · rw [h]
      exact congrArg (fun l => some (StatCall.kruskal l false)) (hfull 5 h)
    · rw [h]
      exact congrArg (fun l => some (StatCall.kruskal l false)) (hfull 6 h)
    · rw [h]
      exact congrArg (fun l => some (StatCall.kruskal l false)) (hfull 7 h)
    · rw [h]
      exact congrArg (fun l => some (StatCall.kruskal l false)) (hfull 8 h)
  · rintro (h | h)
    · rw [h]
      exact congrArg (fun l => some (StatCall.kruskal l true)) (hfull 17 h)
    · rw [h]
      exact congrArg (fun l => some (StatCall.kruskal l true)) (hfull 27 h)

/-- Two-group concrete frame for the C1 witness: categories a and b. -/
def npRows2 : List (Option ℚ × String) := [(some 1, "a"), (some 2, "b")]

/-- Witness for C1 at the two-group frame npRows2: k evaluates to 2 and the
dispatch is the Mann-Whitney call on the two singleton samples. -/
theorem nonParamTest_dispatch_witness :
    npK npRows2 = 2 ∧
    npDispatch (npK npRows2) (npSamples npRows2) =
      some (StatCall.mannwhitneyu [some 1] [some 2]) := by
  obtain ⟨s1, s2, hs, hd⟩ := (nonParamTest_dispatch npRows2).2.2.1 (by decide)
  have h2 : ([s1, s2] : List (List (Option ℚ))) = [[some 1], [some 2]] := by
    rw [← hs]
    decide
  simp only [List.cons.injEq, and_true] at h2
  obtain ⟨rfl, rfl, -⟩ := h2
  exact ⟨by decide, hd⟩

/-- Nine-group concrete frame used for the C4 counterexample: k = 9 is not
in the enumerated dispatch set. -/
def npRows9 : List (Option ℚ × String) :=
  [(some 1, "c1"), (some 2, "c2"), (some 3, "c3"), (some 4, "c4"), (some 5, "c5"),
   (some 6, "c6"), (some 7, "c7"), (some 8, "c8"), (some 9, "c9")]

/-- Stand-in for the external library call, used on inputs where the
dispatch never reaches it. -/
def runTestZero : StatCall → ℚ × ℚ := fun _ => (0, 0)

/-- Counterexample to C4 as stated: for k = 9 the call does not complete
silently; it reaches the verdict line with the p variable never assigned
and raises (modelled as the error result), contradicting the claim that
the call completes without raising an error. -/
theorem nonParamTest_unsupported_k_raises :
    npK npRows9 = 9 ∧
    NonParamTest runTestZero npRows9 ("Q025") 0 =
      Except.error "UnboundLocalError: local variable p referenced before assignment" := by
  constructor
  · decide
  · rfl

/-- C4 amended: for every group count k outside the enumerated set
2..8, 17, 27, NonParamTest runs no statistical test and produces no
verdict, but it does not complete silently: the verdict step references
the never-assigned p-value and the call fails with an
uninitialized-local error. -/
theorem nonParamTest_unsupported_k_error (runTest : StatCall → ℚ × ℚ)
    (rows : List (Option ℚ × String)) (col : String) (alpha : ℚ)
    (h : npK rows ∉ ([2, 3, 4, 5, 6, 7, 8, 17, 27] : List ℕ)) :
    NonParamTest runTest rows col alpha =
      Except.error "UnboundLocalError: local variable p referenced before assignment" := by
  have hnone : npDispatch (npK rows) (npSamples rows) = none := by
    simp only [List.mem_cons, List.not_mem_nil, or_false, not_or] at h
    obtain ⟨h2, h3, h4, h5, h6, h7, h8, h17, h27⟩ := h
    unfold npDispatch
    rw [if_neg h2, if_neg h3, if_neg h4, if_neg h5, if_neg h6, if_neg h7, if_neg h8,
      if_neg h17, if_neg h27]
  unfold NonParamTest
  rw [hnone]

/-- Witness for the amended C4 at the nine-group frame npRows9. -/
theorem nonParamTest_unsupported_k_error_witness :
    NonParamTest runTestZero npRows9 ("Q025") 1 =
      Except.error "UnboundLocalError: local variable p referenced before assignment" :=
  nonParamTest_unsupported_k_error runTestZero npRows9 ("Q025") 1 (by decide)

/-! ## The Analyzer, part 2: NormalityTest -/

/-- Dtype of a DataFrame column, as used by select_dtypes. -/
inductive Dtype where
  | float64
  | int64
  | objectCol
deriving DecidableEq, BEq, Repr

/-- Column of the input frame of the normality sweep: name, dtype, and cell
values (nullable, since a numeric column may hold NaN). -/
structure NumCol where
  name : String
  dtype : Dtype
  vals : List (Option ℚ)
deriving DecidableEq, Repr

/-- Verdict text of the source for a Gaussian-looking sample. -/
def gaussMsg : String := "Amostra tem distribuição gaussiana (H0 não foi rejeitada)"

/-- Verdict text of the source for a non-Gaussian-looking sample. -/
def notGaussMsg : String := "Amostra não possui distribuição gaussiana (Rejeita-se H0)"

/-- Columns retained by select_dtypes with the float64 and int64 include
list. -/
def numericCols (df : List NumCol) : List NumCol :=
  df.filter (fun c => c.dtype == Dtype.float64 || c.dtype == Dtype.int64)

/-- Inner join of the two per-method verdict tables on the variable-name
column, as performed by DataFrame.merge with the inner strategy. -/
def innerJoinVar (l1 l2 : List (String × String)) : List (String × String × String) :=
  l1.flatMap (fun a => (l2.filter (fun b => b.1 == a.1)).map (fun b => (a.1, a.2, b.2)))

/-- NormalityTest: run the two normality tests (passed in as the external
library functions shapiro and normaltest, each returning (statistic,
p-value)) over every numeric column, classify each column per method by
comparing the p-value with the caller-supplied significance level alpha
(the source defaults it to 0.05), and inner-join the two per-method verdict
tables on the variable name. -/
def NormalityTest (shapiro normaltest : List (Option ℚ) → ℚ × ℚ)
    (df : List NumCol) (alpha : ℚ) : List (String × String × String) :=
  let input := numericCols df
  let output1 := input.map (fun c =>
    (c.name, if (shapiro c.vals).2 > alpha then gaussMsg else notGaussMsg))
  let output2 := input.map (fun c =>
    (c.name, if (normaltest c.vals).2 > alpha then gaussMsg else notGaussMsg))
  innerJoinVar output1 output2

theorem filter_keyed_map_nil (l : List α) (key : α → String) (g : α → String)
    (n : String) (h : n ∉ l.map key) :
    (l.map (fun a => (key a, g a))).filter (fun b => b.1 == n) = [] := by
  induction l with
  | nil => rfl
  | cons x t ih =>
    have hx : key x ≠ n := by
      intro he
      exact h (he ▸ List.mem_cons_self (key x) (t.map key))
    have ht : n ∉ t.map key := fun he => h (List.mem_cons_of_mem _ he)
    simp only [List.map_cons, List.filter_cons]
    rw [if_neg (by simpa using hx)]
    exact ih ht

theorem innerJoinVar_cons (a : String × String) (l1 l2 : List (String × String)) :
    innerJoinVar (a :: l1) l2 =
      ((l2.filter (fun b => b.1 == a.1)).map (fun b => (a.1, a.2, b.2))) ++
        innerJoinVar l1 l2 := rfl

theorem innerJoinVar_cons_skip (l1 : List (String × String)) (p : String × String)
    (l2 : List (String × String)) (h : ∀ b ∈ l1, b.1 ≠ p.1) :
    innerJoinVar l1 (p :: l2) = innerJoinVar l1 l2 := by
  induction l1 with
  | nil => rfl
  | cons a t ih =>
    have ha : a.1 ≠ p.1 := h a (List.mem_cons_self a t)
    have ht : ∀ b ∈ t, b.1 ≠ p.1 := fun b hb => h b (List.mem_cons_of_mem a hb)
    have hcond : ¬((p.1 == a.1) = true) := by
      intro he
      exact ha (eq_of_beq he).symm
    rw [innerJoinVar_cons, innerJoinVar_cons, List.filter_cons, if_neg hcond, ih ht]

theorem innerJoinVar_keyed_maps (l : List α) (key : α → String) (f g : α → String)
    (hnd : (l.map key).Nodup) :
    innerJoinVar (l.map fun a => (key a, f a)) (l.map fun a => (key a, g a)) =
      l.map (fun a => (key a, f a, g a)) := by
  induction l with
  | nil => rfl
  | cons x t ih =>
    simp only [List.map_cons, List.nodup_cons] at hnd
    rcases hnd with ⟨hx, hnd2⟩
    rw [List.map_cons, List.map_cons, List.map_cons, innerJoinVar_cons]
    rw [List.filter_cons, if_pos (by simp)]
    rw [filter_keyed_map_nil t key g (key x) hx]
    rw [innerJoinVar_cons_skip (t.map fun a => (key a, f a)) ((key x, g x))
      (t.map fun a => (key a, g a)) ?hne]
    case hne =>
      intro b hb
      rcases List.mem_map.mp hb with ⟨a, ha, rfl⟩
      intro he
      have hkey : key a = key x := he
      exact hx (hkey ▸ List.mem_map_of_mem key ha)
    rw [ih hnd2]
    rfl

/-- C8: the normality sweep runs both test methods over exactly the numeric
(float64/int64) columns; per method a column is classified Gaussian
precisely when that p-value strictly exceeds alpha and non-Gaussian
otherwise, and (for distinct variable names, as produced by a DataFrame)
the result is one combined row per numeric variable carrying both verdicts,
matched by variable name across the two per-method tables. -/
theorem normalityTest_report (shapiro normaltest : List (Option ℚ) → ℚ × ℚ)
    (df : List NumCol) (alpha : ℚ)
    (hnd : ((numericCols df).map NumCol.name).Nodup) :
    NormalityTest shapiro normaltest df alpha =
      (numericCols df).map (fun c =>
        (c.name,
         (if (shapiro c.vals).2 > alpha then gaussMsg else notGaussMsg),
         (if (normaltest c.vals).2 > alpha then gaussMsg else notGaussMsg))) := by
  unfold NormalityTest
  exact innerJoinVar_keyed_maps (numericCols df) NumCol.name
    (fun c => if (shapiro c.vals).2 > alpha then gaussMsg else notGaussMsg)
    (fun c => if (normaltest c.vals).2 > alpha then gaussMsg else notGaussMsg) hnd

/-- Concrete three-column frame for the C8 witness: two numeric columns and
one object column that the sweep must skip. -/
def dfNormW : List NumCol :=
  [ { name := "NU_IDADE", dtype := Dtype.float64, vals := [some 1, some 2, some 3] }
  , { name := "Q005", dtype := Dtype.int64, vals := [some 2, none] }
  , { name := "NOME", dtype := Dtype.objectCol, vals := [] } ]

/-- Stand-in Shapiro-Wilk call for the witness, p-value 1. -/
def shapiroW : List (Option ℚ) → ℚ × ℚ := fun _ => (0, 1)

/-- Stand-in DAgostino-Pearson call for the witness, p-value 0. -/
def normaltestW : List (Option ℚ) → ℚ × ℚ := fun _ => (0, 0)

/-- Witness for C8 on dfNormW with alpha strictly between the two stand-in
p-values: the object column is skipped and the two verdicts disagree as the
p-values dictate. -/
theorem normalityTest_report_witness :
    NormalityTest shapiroW normaltestW dfNormW 0 =
      [("NU_IDADE", gaussMsg, notGaussMsg), ("Q005", gaussMsg, notGaussMsg)] :=
  (normalityTest_report shapiroW normaltestW dfNormW 0 (by decide)).trans (by decide)

/-! ## The Merger/Imputer: GetMerged -/

/-- Student record of the external enem table, restricted to the columns
the Merger/Imputer touches.  Key and state are category strings; the other
cells are nullable floats (Option ℚ). -/
structure EnemRow where
  CO_ESCOLA : String
  NU_IDADE : Option ℚ
  TP_ESTADO_CIVIL : Option ℚ
  TP_ENSINO : Option ℚ
  SG_UF_RESIDENCIA : String
  NU_NOTA_TOT : Option ℚ
  Q005 : Option ℚ
deriving DecidableEq, Repr

/-- School outcome record as produced by the Cleaner: string key (already
astype(str) there; the astype(str) repeated inside GetMerged is the
identity on it) and three nullable numeric fields. -/
structure IdebRow where
  CO_ESCOLA : String
  IN_RENDIMENTO : Option ℚ
  NT_PADRONIZADA : Option ℚ
  IDEB : Option ℚ
deriving DecidableEq, Repr

/-- Comparison used by sort_values on the enem table (by school key). -/
def enemLe (a b : EnemRow) : Bool := strLe a.CO_ESCOLA b.CO_ESCOLA

/-- Comparison used by sort_values on the ideb table (by school key). -/
def idebLe (a b : IdebRow) : Bool := strLe a.CO_ESCOLA b.CO_ESCOLA

/-- Row of the joined frame before any column is dropped: all student
fields plus the three outcome fields brought in by the merge. -/
structure JoinedRow where
  student : EnemRow
  IN_RENDIMENTO : Option ℚ
  NT_PADRONIZADA : Option ℚ
  IDEB : Option ℚ
deriving DecidableEq, Repr

/-- Joined row for a key matched by an ideb row. -/
def joinWith (e : EnemRow) (i : IdebRow) : JoinedRow :=
  ⟨e, i.IN_RENDIMENTO, i.NT_PADRONIZADA, i.IDEB⟩

/-- Joined row for an unmatched key: the outcome fields are null. -/
def joinNull (e : EnemRow) : JoinedRow := ⟨e, none, none, none⟩

/-- Left join on CO_ESCOLA with pandas merge semantics: every left row is
kept in left order; a row with matching right rows is repeated once per
match, a row with none gets null outcome fields. -/
def leftJoin (enem : List EnemRow) (ideb : List IdebRow) : List JoinedRow :=
  enem.flatMap (fun e =>
    if (ideb.filter (fun i => i.CO_ESCOLA == e.CO_ESCOLA)).isEmpty then [joinNull e]
    else (ideb.filter (fun i => i.CO_ESCOLA == e.CO_ESCOLA)).map (joinWith e))

/-- Row of dfmerge after the drop of CO_ESCOLA and of the two
high-missingness columns IDEB and NT_PADRONIZADA. -/
structure MergedRow where
  NU_IDADE : Option ℚ
  TP_ESTADO_CIVIL : Option ℚ
  TP_ENSINO : Option ℚ
  SG_UF_RESIDENCIA : String
  NU_NOTA_TOT : Option ℚ
  Q005 : Option ℚ
  IN_RENDIMENTO : Option ℚ
deriving DecidableEq, Repr

/-- Drop of the join key and of the columns IDEB and NT_PADRONIZADA from a
joined row; applied unconditionally to every row. -/
def dropJoined (j : JoinedRow) : MergedRow :=
  ⟨j.student.NU_IDADE, j.student.TP_ESTADO_CIVIL, j.student.TP_ENSINO,
   j.student.SG_UF_RESIDENCIA, j.student.NU_NOTA_TOT, j.student.Q005, j.IN_RENDIMENTO⟩

/-- The joined frame of GetMerged: both inputs are first sorted in place by
key, then left-joined. -/
def joinedTable (enem : List EnemRow) (ideb : List IdebRow) : List JoinedRow :=
  leftJoin (pySortBy enemLe enem) (pySortBy idebLe ideb)

/-- dfmerge after the unconditional column drops. -/
def mergedTable (enem : List EnemRow) (ideb : List IdebRow) : List MergedRow :=
  (joinedTable enem ideb).map dropJoined

/-- Numeric comparison used when sorting values for the median. -/
def ratLeB (a b : ℚ) : Bool := decide (a ≤ b)

/-- Median of a sorted non-empty list, pandas convention: middle element
for odd length, mean of the two middle elements for even length. -/
def medianOfSorted (s : List ℚ) : ℚ :=
  if s.length % 2 = 1 then s.getD (s.length / 2) 0
  else (s.getD (s.length / 2 - 1) 0 + s.getD (s.length / 2) 0) / 2

/-- Series.median with skipna: the list holds the non-null values; the
median of no values is NaN (none). -/
def pyMedian (l : List ℚ) : Option ℚ :=
  if pySortBy ratLeB l = [] then none else some (medianOfSorted (pySortBy ratLeB l))

/-- One step of the mode scan: keep the value with the larger count,
breaking count ties towards the smaller value (Series.mode sorts the modal
values ascending and the source takes mode()[0], the smallest). -/
def pyModeStep (l : List ℚ) (acc : Option ℚ) (c : ℚ) : Option ℚ :=
  match acc with
  | none => some c
  | some b =>
    if l.count c > l.count b ∨ (l.count c = l.count b ∧ c < b) then some c else some b

/-- Series.mode()[0] over the non-null values of a column: the smallest
among the most frequent values; taking element [0] of the empty mode series
raises, so the empty case is none. -/
def pyMode (l : List ℚ) : Option ℚ := (pdUnique l).foldl (pyModeStep l) none

/-- Series.fillna at one cell: keep a present value, otherwise use the fill
value (which may itself be NaN, in which case the cell stays null). -/
def fillNa (v m : Option ℚ) : Option ℚ :=
  match v with
  | some x => some x
  | none => m

/-- Text cell produced by applymap(str) on a nullable float cell: the
decimal text of the value, or the text nan for a null.  Python str is
injective on float64 values and never renders a non-NaN float as the nan
text, which the freeness of the two constructors models. -/
inductive StrCell where
  | ofNum (q : ℚ)
  | nanStr
deriving DecidableEq, Repr

/-- applymap(str) on one nullable cell. -/
def pyStrOfCell : Option ℚ → StrCell
  | some q => StrCell.ofNum q
  | none => StrCell.nanStr

/-- Output row of GetMerged: after applymap(str) every field is text, and
the four named numeric columns are cast back to float; on those columns
float(str(x)) round-trips every float64 value including NaN, so they are
again nullable floats. -/
structure OutRow where
  NU_IDADE : Option ℚ
  TP_ESTADO_CIVIL : StrCell
  TP_ENSINO : StrCell
  SG_UF_RESIDENCIA : String
  NU_NOTA_TOT : Option ℚ
  Q005 : Option ℚ
  IN_RENDIMENTO : Option ℚ
deriving DecidableEq, Repr

/-- applymap(str) then float() on one cell of the four cast columns:
float(str(x)) == x for every float64 x (NaN maps to the text nan and back
to NaN), so on the Option ℚ model this is the identity. -/
def strFloatRoundtrip (v : Option ℚ) : Option ℚ := v

/-- The final applymap(str) plus the float cast of NU_IDADE, NU_NOTA_TOT,
IN_RENDIMENTO and Q005; str of the state string is itself. -/
def stringifyCast (r : MergedRow) : OutRow :=
  ⟨strFloatRoundtrip r.NU_IDADE, pyStrOfCell r.TP_ESTADO_CIVIL, pyStrOfCell r.TP_ENSINO,
   r.SG_UF_RESIDENCIA, strFloatRoundtrip r.NU_NOTA_TOT, strFloatRoundtrip r.Q005,
   strFloatRoundtrip r.IN_RENDIMENTO⟩

/-- Per-state median of the non-null IN_RENDIMENTO values, the value that
groupby(SG_UF_RESIDENCIA).transform(median) aligns to each row of the
group. -/
def stateMedian (m : List MergedRow) (s : String) : Option ℚ :=
  pyMedian ((m.filter (fun r => r.SG_UF_RESIDENCIA == s)).filterMap
    (fun r => r.IN_RENDIMENTO))

/-- Age imputation at one row: fillna with the supplied global median. -/
def fillAge (med : Option ℚ) (r : MergedRow) : MergedRow :=
  { r with NU_IDADE := fillNa r.NU_IDADE med }

/-- Marital-status imputation at one row: fillna with the global mode. -/
def fillMarital (mc : ℚ) (r : MergedRow) : MergedRow :=
  { r with TP_ESTADO_CIVIL := fillNa r.TP_ESTADO_CIVIL (some mc) }

/-- School-type imputation at one row: fillna with the global mode. -/
def fillSchool (sc : ℚ) (r : MergedRow) : MergedRow :=
  { r with TP_ENSINO := fillNa r.TP_ENSINO (some sc) }

/-- Enrollment-index imputation at one row: fillna with the per-state
median taken over the current frame m3. -/
def fillRend (m3 : List MergedRow) (r : MergedRow) : MergedRow :=
  { r with IN_RENDIMENTO := fillNa r.IN_RENDIMENTO (stateMedian m3 r.SG_UF_RESIDENCIA) }

/-- dfmerge after the age imputation (the astype float64 on NU_IDADE is
the identity on the Option ℚ model). -/
def mAge (m : List MergedRow) : List MergedRow :=
  m.map (fillAge (pyMedian (m.filterMap MergedRow.NU_IDADE)))

/-- dfmerge after the marital-status imputation with mode value mc. -/
def mMar (m : List MergedRow) (mc : ℚ) : List MergedRow :=
  (mAge m).map (fillMarital mc)

/-- dfmerge after the school-type imputation with mode value sc. -/
def mSch (m : List MergedRow) (mc sc : ℚ) : List MergedRow :=
  (mMar m mc).map (fillSchool sc)

/-- The imputation and cast tail of GetMerged, in source order: age median
fill, marital mode fill, school mode fill, per-state enrollment median
fill, then stringify and cast.  mode()[0] on an all-null column raises
(KeyError on the empty mode series), caught and re-raised by the stage;
a median of an empty group is NaN and does not raise. -/
def imputeAndCast (m : List MergedRow) : Except String (List OutRow) :=
  match pyMode ((mAge m).filterMap MergedRow.TP_ESTADO_CIVIL) with
  | none => Except.error "KeyError: 0 (mode of an all-null TP_ESTADO_CIVIL)"
  | some mc =>
    match pyMode ((mMar m mc).filterMap MergedRow.TP_ENSINO) with
    | none => Except.error "KeyError: 0 (mode of an all-null TP_ENSINO)"
    | some sc =>
      Except.ok (((mSch m mc sc).map (fillRend (mSch m mc sc))).map stringifyCast)

/-- Decidable equality of stage results, used to evaluate the concrete
witnesses. -/
instance exceptDecEq [DecidableEq ε] [DecidableEq α] : DecidableEq (Except ε α) :=
  fun a b =>
    match a, b with
    | Except.error x, Except.error y =>
      if h : x = y then isTrue (by rw [h]) else isFalse (by intro hc; cases hc; exact h rfl)
    | Except.error _, Except.ok _ => isFalse (by intro hc; cases hc)
    | Except.ok _, Except.error _ => isFalse (by intro hc; cases hc)
    | Except.ok x, Except.ok y =>
      if h : x = y then isTrue (by rw [h]) else isFalse (by intro hc; cases hc; exact h rfl)

/-- Full observable effect of GetMerged: both inputs are sorted in place by
key (the caller sees enemAfter and idebAfter in its own variables), and the
returned frame is built from the merged table. -/
structure GetMergedResult where
  enemAfter : List EnemRow
  idebAfter : List IdebRow
  result : Except String (List OutRow)
deriving DecidableEq, Repr

/-- GetMerged: astype(str) on the ideb key (identity on the string model),
in-place sort of both inputs by CO_ESCOLA, left join, drop of CO_ESCOLA,
IDEB and NT_PADRONIZADA, imputation and cast. -/
def GetMerged (enem : List EnemRow) (ideb : List IdebRow) : GetMergedResult :=
  { enemAfter := pySortBy enemLe enem
  , idebAfter := pySortBy idebLe ideb
  , result := imputeAndCast (mergedTable enem ideb) }

theorem pyMedian_isSome {l : List ℚ} (h : l ≠ []) : ∃ q, pyMedian l = some q := by
  have hs : pySortBy ratLeB l ≠ [] := by
    intro h0
    have hlen := (pySortBy_perm ratLeB l).length_eq
    rw [h0] at hlen
    exact h (List.length_eq_zero.mp hlen.symm)
  exact ⟨medianOfSorted (pySortBy ratLeB l), by rw [pyMedian, if_neg hs]⟩

theorem foldl_pyModeStep_isSome (l : List ℚ) :
    ∀ (cs : List ℚ) (b : ℚ), ∃ q, cs.foldl (pyModeStep l) (some b) = some q := by
  intro cs
  induction cs with
  | nil => intro b; exact ⟨b, rfl⟩
  | cons d cs ih =>
    intro b
    show ∃ q, cs.foldl (pyModeStep l) (pyModeStep l (some b) d) = some q
    by_cases hc : l.count d > l.count b ∨ (l.count d = l.count b ∧ d < b)
    · rw [show pyModeStep l (some b) d = some d from by rw [pyModeStep, if_pos hc]]
      exact ih d
    · rw [show pyModeStep l (some b) d = some b from by rw [pyModeStep, if_neg hc]]
      exact ih b

theorem pyMode_isSome {l : List ℚ} (h : l ≠ []) : ∃ q, pyMode l = some q := by
  rcases hu : pdUnique l with _ | ⟨c, cs⟩
  · exact absurd hu (pdUnique_ne_nil h)
  · rw [pyMode, hu]
    show ∃ q, cs.foldl (pyModeStep l) (pyModeStep l none c) = some q
    exact foldl_pyModeStep_isSome l cs c

theorem pyMode_eq_none_iff (l : List ℚ) : pyMode l = none ↔ l = [] := by
  constructor
  · intro h
    by_cases hl : l = []
    · exact hl
    · rcases pyMode_isSome hl with ⟨q, hq⟩
      rw [h] at hq
      exact Option.noConfusion hq
  · rintro rfl
    rfl

theorem fillNa_some_ne_none (v : Option ℚ) (q : ℚ) : fillNa v (some q) ≠ none := by
  cases v <;> simp [fillNa]

theorem pyStr_fill_ne_nan (v : Option ℚ) (q : ℚ) :
    pyStrOfCell (fillNa v (some q)) ≠ StrCell.nanStr := by
  cases v <;> simp [fillNa, pyStrOfCell]

theorem filterMap_map_of_preserve (f : MergedRow → MergedRow)
    (g : MergedRow → Option ℚ) (hg : ∀ r, g (f r) = g r) (m : List MergedRow) :
    (m.map f).filterMap g = m.filterMap g := by
  rw [List.filterMap_map]
  exact congrArg (fun h => List.filterMap h m) (funext hg)

theorem stateMedian_map (m : List MergedRow) (f : MergedRow → MergedRow)
    (hs : ∀ r, (f r).SG_UF_RESIDENCIA = r.SG_UF_RESIDENCIA)
    (hr : ∀ r, (f r).IN_RENDIMENTO = r.IN_RENDIMENTO) (s : String) :
    stateMedian (m.map f) s = stateMedian m s := by
  unfold stateMedian
  rw [List.filter_map]
  have hp : ((fun r => r.SG_UF_RESIDENCIA == s) ∘ f) =
      fun r : MergedRow => r.SG_UF_RESIDENCIA == s := by
    funext r
    simp [Function.comp, hs r]
  rw [hp, List.filterMap_map]
  have hq : ((fun r : MergedRow => r.IN_RENDIMENTO) ∘ f) =
      fun r : MergedRow => r.IN_RENDIMENTO := funext fun r => hr r
  rw [hq]

theorem stateMedian_mSch (m : List MergedRow) (mc sc : ℚ) (s : String) :
    stateMedian (mSch m mc sc) s = stateMedian m s := by
  unfold mSch mMar mAge
  rw [stateMedian_map _ (fillSchool sc) (fun r => rfl) (fun r => rfl) s,
    stateMedian_map _ (fillMarital mc) (fun r => rfl) (fun r => rfl) s,
    stateMedian_map _ (fillAge (pyMedian (m.filterMap MergedRow.NU_IDADE)))
      (fun r => rfl) (fun r => rfl) s]

theorem leftJoin_student_mem (enem : List EnemRow) (ideb : List IdebRow) (e : EnemRow)
    (he : e ∈ enem) : ∃ j ∈ leftJoin enem ideb, j.student = e := by
  by_cases h : ((ideb.filter (fun i => i.CO_ESCOLA == e.CO_ESCOLA)).isEmpty) = true
  · refine ⟨joinNull e, ?_, rfl⟩
    apply List.mem_flatMap.mpr
    refine ⟨e, he, ?_⟩
    rw [if_pos h]
    exact List.mem_singleton.mpr rfl
  · have hne : ideb.filter (fun i => i.CO_ESCOLA == e.CO_ESCOLA) ≠ [] := by
      intro h0
      rw [h0] at h
      exact h rfl
    rcases List.exists_mem_of_ne_nil _ hne with ⟨i, hi⟩
    refine ⟨joinWith e i, ?_, rfl⟩
    apply List.mem_flatMap.mpr
    refine ⟨e, he, ?_⟩
    rw [if_neg h]
    exact List.mem_map_of_mem (joinWith e) hi

theorem leftJoin_unmatched (enem : List EnemRow) (ideb : List IdebRow) (j : JoinedRow)
    (hj : j ∈ leftJoin enem ideb)
    (h : ∀ i ∈ ideb, i.CO_ESCOLA ≠ j.student.CO_ESCOLA) :
    j.IN_RENDIMENTO = none ∧ j.NT_PADRONIZADA = none ∧ j.IDEB = none := by
  rcases List.mem_flatMap.mp hj with ⟨e, he, hbr⟩
  by_cases hms : ((ideb.filter (fun i => i.CO_ESCOLA == e.CO_ESCOLA)).isEmpty) = true
  · rw [if_pos hms] at hbr
    rcases List.mem_singleton.mp hbr with rfl
    exact ⟨rfl, rfl, rfl⟩
  · rw [if_neg hms] at hbr
    rcases List.mem_map.mp hbr with ⟨i, hi, rfl⟩
    rcases List.mem_filter.mp hi with ⟨hi1, hi2⟩
    exact absurd (eq_of_beq hi2) (h i hi1)

/-- C6: the merge of GetMerged is a left join: every student row of enem
reappears as the student part of some joined row, a joined row whose key
matches no ideb row has all three outcome fields null, the merged table is
the joined table with the drop applied to every row, and the drop removes
IDEB and NT_PADRONIZADA unconditionally (its result does not depend on
those two fields at all, whatever their missingness). -/
theorem getMerged_left_join_drops (enem : List EnemRow) (ideb : List IdebRow) :
    (∀ e ∈ enem, ∃ j ∈ joinedTable enem ideb, j.student = e) ∧
    (∀ j ∈ joinedTable enem ideb,
      (∀ i ∈ ideb, i.CO_ESCOLA ≠ j.student.CO_ESCOLA) →
        j.IN_RENDIMENTO = none ∧ j.NT_PADRONIZADA = none ∧ j.IDEB = none) ∧
    (mergedTable enem ideb = (joinedTable enem ideb).map dropJoined) ∧
    (∀ (j : JoinedRow) (a b : Option ℚ),
      dropJoined { j with IDEB := a, NT_PADRONIZADA := b } = dropJoined j) := by
  refine ⟨?_, ?_, rfl, fun j a b => rfl⟩
  · intro e he
    exact leftJoin_student_mem (pySortBy enemLe enem) (pySortBy idebLe ideb) e
      ((mem_pySortBy enemLe e enem).mpr he)
  · intro j hj hno
    refine leftJoin_unmatched (pySortBy enemLe enem) (pySortBy idebLe ideb) j hj ?_
    intro i hi
    exact hno i ((mem_pySortBy idebLe i ideb).mp hi)

/-- Student row with school key 01, matched in the C6 witness tables. -/
def enemM6 : EnemRow :=
  { CO_ESCOLA := "01", NU_IDADE := some 20, TP_ESTADO_CIVIL := some 1,
    TP_ENSINO := some 1, SG_UF_RESIDENCIA := "SP", NU_NOTA_TOT := some 500,
    Q005 := some 4 }

/-- Student row with school key 99, unmatched in the C6 witness tables. -/
def enemU6 : EnemRow :=
  { CO_ESCOLA := "99", NU_IDADE := some 30, TP_ESTADO_CIVIL := some 2,
    TP_ENSINO := some 1, SG_UF_RESIDENCIA := "RJ", NU_NOTA_TOT := some 700,
    Q005 := some 2 }

/-- Two-row enem table for the C6 witness. -/
def enemW6 : List EnemRow := [enemM6, enemU6]

/-- One-row ideb table for the C6 witness: key 01 only. -/
def idebW6 : List IdebRow :=
  [ { CO_ESCOLA := "01", IN_RENDIMENTO := some 7, NT_PADRONIZADA := some 1,
      IDEB := some 2 } ]

/-- Witness for C6 on the concrete tables: the unmatched student row is
preserved by the join, and its joined row has null outcome fields. -/
theorem getMerged_left_join_drops_witness :
    (∃ j ∈ joinedTable enemW6 idebW6, j.student = enemU6) ∧
    ((joinNull enemU6).IN_RENDIMENTO = none ∧
     (joinNull enemU6).NT_PADRONIZADA = none ∧ (joinNull enemU6).IDEB = none) :=
  ⟨(getMerged_left_join_drops enemW6 idebW6).1 enemU6 (by decide),
   (getMerged_left_join_drops enemW6 idebW6).2.1 (joinNull enemU6) (by decide) (by decide)⟩

/-- C9 counterexample tables: the two student rows are not in key order. -/
def enemRowB9 : EnemRow :=
  { CO_ESCOLA := "B", NU_IDADE := some 20, TP_ESTADO_CIVIL := some 1,
    TP_ENSINO := some 1, SG_UF_RESIDENCIA := "SP", NU_NOTA_TOT := some 500,
    Q005 := some 4 }

/-- Second C9 counterexample row, with the smaller key. -/
def enemRowA9 : EnemRow :=
  { CO_ESCOLA := "A", NU_IDADE := some 21, TP_ESTADO_CIVIL := some 1,
    TP_ENSINO := some 1, SG_UF_RESIDENCIA := "SP", NU_NOTA_TOT := some 600,
    Q005 := some 4 }

/-- Unsorted two-row enem table for the C9 counterexample. -/
def enemC9 : List EnemRow := [enemRowB9, enemRowA9]

/-- Counterexample to C9 as stated: after GetMerged runs, the caller's enem
table is not unchanged; its rows have been reordered by the in-place sort. -/
theorem getMerged_mutates_inputs_cex :
    (GetMerged enemC9 []).enemAfter = [enemRowA9, enemRowB9] ∧
    (GetMerged enemC9 []).enemAfter ≠ enemC9 := by
  constructor
  · decide
  · decide

/-- C9 amended: the Merger/Imputer does mutate its inputs: it sorts both
caller tables in place by school key (and retypes the ideb key in place),
so after the call the caller holds key-sorted permutations of its original
tables rather than the tables it passed in; only tables that were already
key-sorted come back unchanged. -/
theorem getMerged_sorts_inputs_in_place (enem : List EnemRow) (ideb : List IdebRow) :
    (GetMerged enem ideb).enemAfter = pySortBy enemLe enem ∧
    ((GetMerged enem ideb).enemAfter).Perm enem ∧
    ((GetMerged enem ideb).enemAfter).Pairwise (fun a b => enemLe a b = true) ∧
    (GetMerged enem ideb).idebAfter = pySortBy idebLe ideb ∧
    ((GetMerged enem ideb).idebAfter).Perm ideb ∧
    ((GetMerged enem ideb).idebAfter).Pairwise (fun a b => idebLe a b = true) :=
  ⟨rfl, pySortBy_perm enemLe enem,
   pySortBy_pairwise enemLe (fun a b => strLe_total a.CO_ESCOLA b.CO_ESCOLA)
     (fun h1 h2 => strLe_trans h1 h2) enem,
   rfl, pySortBy_perm idebLe ideb,
   pySortBy_pairwise idebLe (fun a b => strLe_total a.CO_ESCOLA b.CO_ESCOLA)
     (fun h1 h2 => strLe_trans h1 h2) ideb⟩

theorem imputeAndCast_err1 (m : List MergedRow)
    (h1 : pyMode ((mAge m).filterMap MergedRow.TP_ESTADO_CIVIL) = none) :
    imputeAndCast m = Except.error "KeyError: 0 (mode of an all-null TP_ESTADO_CIVIL)" := by
  simp only [imputeAndCast, h1]

theorem imputeAndCast_err2 (m : List MergedRow) (mc : ℚ)
    (h1 : pyMode ((mAge m).filterMap MergedRow.TP_ESTADO_CIVIL) = some mc)
    (h2 : pyMode ((mMar m mc).filterMap MergedRow.TP_ENSINO) = none) :
    imputeAndCast m = Except.error "KeyError: 0 (mode of an all-null TP_ENSINO)" := by
  simp only [imputeAndCast, h1, h2]

theorem imputeAndCast_ok (m : List MergedRow) (mc sc : ℚ)
    (h1 : pyMode ((mAge m).filterMap MergedRow.TP_ESTADO_CIVIL) = some mc)
    (h2 : pyMode ((mMar m mc).filterMap MergedRow.TP_ENSINO) = some sc) :
    imputeAndCast m =
      Except.ok (((mSch m mc sc).map (fillRend (mSch m mc sc))).map stringifyCast) := by
  simp only [imputeAndCast, h1, h2]

theorem filterMap_mar_mAge (m : List MergedRow) :
    (mAge m).filterMap MergedRow.TP_ESTADO_CIVIL = m.filterMap MergedRow.TP_ESTADO_CIVIL := by
  unfold mAge
  exact filterMap_map_of_preserve (fillAge (pyMedian (m.filterMap MergedRow.NU_IDADE)))
    MergedRow.TP_ESTADO_CIVIL (fun r => rfl) m

theorem filterMap_sch_mMar (m : List MergedRow) (mc : ℚ) :
    (mMar m mc).filterMap MergedRow.TP_ENSINO = m.filterMap MergedRow.TP_ENSINO := by
  unfold mMar mAge
  rw [filterMap_map_of_preserve (fillMarital mc) MergedRow.TP_ENSINO (fun r => rfl),
    filterMap_map_of_preserve (fillAge (pyMedian (m.filterMap MergedRow.NU_IDADE)))
      MergedRow.TP_ENSINO (fun r => rfl)]

/-- C5 amended: the Merger/Imputer fails exactly when the global mode of
the marital-status or school-type column is undefined (the column is
all-null in the merged table, so mode()[0] raises on the empty mode
series).  A state-of-residence group with no non-null enrollment index
does not fail the stage: the group median is NaN, fillna leaves those
cells null, and they survive the stringify/cast as NaN. -/
theorem getMerged_error_iff_empty_mode (enem : List EnemRow) (ideb : List IdebRow) :
    (∃ msg, (GetMerged enem ideb).result = Except.error msg) ↔
      ((mergedTable enem ideb).filterMap MergedRow.TP_ESTADO_CIVIL = [] ∨
       (mergedTable enem ideb).filterMap MergedRow.TP_ENSINO = []) := by
  have hres : (GetMerged enem ideb).result = imputeAndCast (mergedTable enem ideb) := rfl
  cases h1 : pyMode ((mAge (mergedTable enem ideb)).filterMap MergedRow.TP_ESTADO_CIVIL) with
  | none =>
    constructor
    · intro _
      left
      rw [← filterMap_mar_mAge]
      exact (pyMode_eq_none_iff _).mp h1
    · intro _
      exact ⟨_, hres.trans (imputeAndCast_err1 _ h1)⟩
  | some mc =>
    cases h2 : pyMode ((mMar (mergedTable enem ideb) mc).filterMap MergedRow.TP_ENSINO) with
    | none =>
      constructor
      · intro _
        right
        rw [← filterMap_sch_mMar (mergedTable enem ideb) mc]
        exact (pyMode_eq_none_iff _).mp h2
      · intro _
        exact ⟨_, hres.trans (imputeAndCast_err2 _ mc h1 h2)⟩
    | some sc =>
      constructor
      · rintro ⟨msg, hmsg⟩
        rw [hres.trans (imputeAndCast_ok _ mc sc h1 h2)] at hmsg
        exact Except.noConfusion hmsg
      · rintro (hempty | hempty)
        · rw [filterMap_mar_mAge, hempty] at h1
          exact Option.noConfusion h1
        · rw [filterMap_sch_mMar _ mc, hempty] at h2
          exact Option.noConfusion h2

/-- Three-row enem table in a single residence state for the C5
counterexample; no ideb row matches, so every merged enrollment index is
null and the state group SP has zero non-null values. -/
def enemC5 : List EnemRow :=
  [ { CO_ESCOLA := "01", NU_IDADE := some 20, TP_ESTADO_CIVIL := some 1,
      TP_ENSINO := some 1, SG_UF_RESIDENCIA := "SP", NU_NOTA_TOT := some 500,
      Q005 := some 4 }
  , { CO_ESCOLA := "02", NU_IDADE := some 21, TP_ESTADO_CIVIL := some 1,
      TP_ENSINO := some 2, SG_UF_RESIDENCIA := "SP", NU_NOTA_TOT := some 600,
      Q005 := some 4 }
  , { CO_ESCOLA := "03", NU_IDADE := some 22, TP_ESTADO_CIVIL := some 2,
      TP_ENSINO := some 1, SG_UF_RESIDENCIA := "SP", NU_NOTA_TOT := some 550,
      Q005 := some 3 } ]

/-- Counterexample to C5 as stated: the only state group has zero non-null
enrollment-index values (the group median is undefined), yet the stage does
not fail; it returns an output table. -/
theorem getMerged_empty_state_group_ok :
    (mergedTable enemC5 ([] : List IdebRow)).length = 3 ∧
    (mergedTable enemC5 ([] : List IdebRow)).filterMap MergedRow.IN_RENDIMENTO =
      ([] : List ℚ) ∧
    ((GetMerged enemC5 ([] : List IdebRow)).result.toOption.isSome = true) := by
  refine ⟨by decide, by decide, by decide⟩

/-- C2: when every imputation group of the merged table is non-empty
(some non-null age, some non-null marital status, some non-null school
type, and every state group holding some non-null enrollment index), the
Merger/Imputer succeeds and its output has no null age, marital status,
school type or enrollment index. -/
theorem getMerged_output_no_nulls (enem : List EnemRow) (ideb : List IdebRow)
    (hage : ∃ r ∈ mergedTable enem ideb, r.NU_IDADE ≠ none)
    (hmar : ∃ r ∈ mergedTable enem ideb, r.TP_ESTADO_CIVIL ≠ none)
    (hsch : ∃ r ∈ mergedTable enem ideb, r.TP_ENSINO ≠ none)
    (hrend : ∀ r ∈ mergedTable enem ideb, ∃ q ∈ mergedTable enem ideb,
      q.SG_UF_RESIDENCIA = r.SG_UF_RESIDENCIA ∧ q.IN_RENDIMENTO ≠ none) :
    ∃ out, (GetMerged enem ideb).result = Except.ok out ∧
      ∀ r ∈ out, r.NU_IDADE ≠ none ∧ r.TP_ESTADO_CIVIL ≠ StrCell.nanStr ∧
        r.TP_ENSINO ≠ StrCell.nanStr ∧ r.IN_RENDIMENTO ≠ none := by
  have hne : ∀ g : MergedRow → Option ℚ, (∃ r ∈ mergedTable enem ideb, g r ≠ none) →
      (mergedTable enem ideb).filterMap g ≠ [] := by
    rintro g ⟨r, hrm, hr⟩ h0
    cases hv : g r with
    | none => exact hr hv
    | some a =>
      have hmem : a ∈ (mergedTable enem ideb).filterMap g :=
        List.mem_filterMap.mpr ⟨r, hrm, hv⟩
      rw [h0] at hmem
      exact List.not_mem_nil a hmem
  obtain ⟨amed, hamed⟩ := pyMedian_isSome (hne MergedRow.NU_IDADE hage)
  have hmar1 : (mAge (mergedTable enem ideb)).filterMap MergedRow.TP_ESTADO_CIVIL ≠ [] := by
    rw [filterMap_mar_mAge]
    exact hne MergedRow.TP_ESTADO_CIVIL hmar
  obtain ⟨mc, hmc⟩ := pyMode_isSome hmar1
  have hsch1 : (mMar (mergedTable enem ideb) mc).filterMap MergedRow.TP_ENSINO ≠ [] := by
    rw [filterMap_sch_mMar]
    exact hne MergedRow.TP_ENSINO hsch
  obtain ⟨sc, hsc⟩ := pyMode_isSome hsch1
  refine ⟨((mSch (mergedTable enem ideb) mc sc).map
      (fillRend (mSch (mergedTable enem ideb) mc sc))).map stringifyCast,
    imputeAndCast_ok _ mc sc hmc hsc, ?_⟩
  intro r hr
  rcases List.mem_map.mp hr with ⟨r4, hr4, rfl⟩
  rcases List.mem_map.mp hr4 with ⟨r3, hr3, rfl⟩
  unfold mSch at hr3
  rcases List.mem_map.mp hr3 with ⟨r2, hr2, rfl⟩
  unfold mMar at hr2
  rcases List.mem_map.mp hr2 with ⟨r1, hr1, rfl⟩
  unfold mAge at hr1
  rcases List.mem_map.mp hr1 with ⟨r0, hr0, rfl⟩
  refine ⟨?_, ?_, ?_, ?_⟩
  · show fillNa r0.NU_IDADE
      (pyMedian ((mergedTable enem ideb).filterMap MergedRow.NU_IDADE)) ≠ none
    rw [hamed]
    exact fillNa_some_ne_none _ _
  · show pyStrOfCell (fillNa r0.TP_ESTADO_CIVIL (some mc)) ≠ StrCell.nanStr
    exact pyStr_fill_ne_nan _ _
  · show pyStrOfCell (fillNa r0.TP_ENSINO (some sc)) ≠ StrCell.nanStr
    exact pyStr_fill_ne_nan _ _
  · show fillNa r0.IN_RENDIMENTO
        (stateMedian (mSch (mergedTable enem ideb) mc sc) r0.SG_UF_RESIDENCIA) ≠ none
    rw [stateMedian_mSch]
    cases hv : r0.IN_RENDIMENTO with
    | some a => simp [fillNa]
    | none =>
      rcases hrend r0 hr0 with ⟨q, hqm, hqs, hqr⟩
      cases hqv : q.IN_RENDIMENTO with
      | none => exact absurd hqv hqr
      | some qq =>
        have hql : qq ∈ ((mergedTable enem ideb).filter
            (fun t => t.SG_UF_RESIDENCIA == r0.SG_UF_RESIDENCIA)).filterMap
            (fun t => t.IN_RENDIMENTO) := by
          refine List.mem_filterMap.mpr ⟨q, ?_, hqv⟩
          exact List.mem_filter.mpr ⟨hqm, by simp [hqs]⟩
        have hlist : ((mergedTable enem ideb).filter
            (fun t => t.SG_UF_RESIDENCIA == r0.SG_UF_RESIDENCIA)).filterMap
            (fun t => t.IN_RENDIMENTO) ≠ [] := by
          intro h0
          rw [h0] at hql
          exact List.not_mem_nil qq hql
        rcases pyMedian_isSome hlist with ⟨mq, hmq⟩
        show fillNa none (stateMedian (mergedTable enem ideb) r0.SG_UF_RESIDENCIA) ≠ none
        unfold stateMedian
        rw [hmq]
        simp [fillNa]

/-- C3: in a successful run, each output enrollment-index cell equals the
corresponding merged cell if that was non-null, and otherwise the median of
the non-null enrollment indices within that row's own state-of-residence
group (the per-state median, never a global one: the fill value is
stateMedian at the row's own state). -/
theorem getMerged_rend_group_median (enem : List EnemRow) (ideb : List IdebRow)
    (out : List OutRow) (h : (GetMerged enem ideb).result = Except.ok out) :
    out.length = (mergedTable enem ideb).length ∧
    ∀ (i : ℕ) (h1 : i < out.length) (h2 : i < (mergedTable enem ideb).length),
      (out.get ⟨i, h1⟩).IN_RENDIMENTO =
        fillNa ((mergedTable enem ideb).get ⟨i, h2⟩).IN_RENDIMENTO
          (stateMedian (mergedTable enem ideb)
            ((mergedTable enem ideb).get ⟨i, h2⟩).SG_UF_RESIDENCIA) := by
  have hres : (GetMerged enem ideb).result = imputeAndCast (mergedTable enem ideb) := rfl
  rw [hres] at h
  cases h1m : pyMode ((mAge (mergedTable enem ideb)).filterMap MergedRow.TP_ESTADO_CIVIL) with
  | none =>
    rw [imputeAndCast_err1 _ h1m] at h
    exact Except.noConfusion h
  | some mc =>
    cases h2m : pyMode ((mMar (mergedTable enem ideb) mc).filterMap MergedRow.TP_ENSINO) with
    | none =>
      rw [imputeAndCast_err2 _ mc h1m h2m] at h
      exact Except.noConfusion h
    | some sc =>
      rw [imputeAndCast_ok _ mc sc h1m h2m] at h
      injection h with h
      subst h
      constructor
      · simp [List.length_map, mSch, mMar, mAge]
      · intro i hi1 hi2
        have hsm := stateMedian_mSch (mergedTable enem ideb) mc sc
        simp only [mSch, mMar, mAge] at hsm
        simp only [List.get_eq_getElem, mSch, mMar, mAge, List.getElem_map,
          stringifyCast, strFloatRoundtrip, fillRend, fillSchool, fillMarital, fillAge, hsm]

/-- Three-row single-state enem table for the C2 witness, with one null in
each imputed column and an odd number of non-null values per group. -/
def enemW2 : List EnemRow :=
  [ { CO_ESCOLA := "01", NU_IDADE := some 20, TP_ESTADO_CIVIL := some 1,
      TP_ENSINO := none, SG_UF_RESIDENCIA := "SP", NU_NOTA_TOT := some 500,
      Q005 := some 4 }
  , { CO_ESCOLA := "02", NU_IDADE := none, TP_ESTADO_CIVIL := none,
      TP_ENSINO := some 2, SG_UF_RESIDENCIA := "SP", NU_NOTA_TOT := some 600,
      Q005 := some 4 }
  , { CO_ESCOLA := "03", NU_IDADE := none, TP_ESTADO_CIVIL := some 1,
      TP_ENSINO := some 2, SG_UF_RESIDENCIA := "SP", NU_NOTA_TOT := some 550,
      Q005 := some 3 } ]

/-- One-row ideb table for the C2 witness: only school 01 is matched. -/
def idebW2 : List IdebRow :=
  [ { CO_ESCOLA := "01", IN_RENDIMENTO := some 7, NT_PADRONIZADA := some 1,
      IDEB := some 2 } ]

/-- Output of GetMerged on the C2 witness tables. -/
def outW2 : List OutRow :=
  [ { NU_IDADE := some 20, TP_ESTADO_CIVIL := StrCell.ofNum 1,
      TP_ENSINO := StrCell.ofNum 2, SG_UF_RESIDENCIA := "SP",
      NU_NOTA_TOT := some 500, Q005 := some 4, IN_RENDIMENTO := some 7 }
  , { NU_IDADE := some 20, TP_ESTADO_CIVIL := StrCell.ofNum 1,
      TP_ENSINO := StrCell.ofNum 2, SG_UF_RESIDENCIA := "SP",
      NU_NOTA_TOT := some 600, Q005 := some 4, IN_RENDIMENTO := some 7 }
  , { NU_IDADE := some 20, TP_ESTADO_CIVIL := StrCell.ofNum 1,
      TP_ENSINO := StrCell.ofNum 2, SG_UF_RESIDENCIA := "SP",
      NU_NOTA_TOT := some 550, Q005 := some 3, IN_RENDIMENTO := some 7 } ]

/-- Witness for C2 on the concrete tables enemW2 and idebW2: every
imputation group is non-empty there, the stage succeeds and no imputed
field of the output is null. -/
theorem getMerged_output_no_nulls_witness :
    (GetMerged enemW2 idebW2).result = Except.ok outW2 ∧
    ∀ r ∈ outW2, r.NU_IDADE ≠ none ∧ r.TP_ESTADO_CIVIL ≠ StrCell.nanStr ∧
      r.TP_ENSINO ≠ StrCell.nanStr ∧ r.IN_RENDIMENTO ≠ none := by
  obtain ⟨out, hout, hprop⟩ :=
    getMerged_output_no_nulls enemW2 idebW2 (by decide) (by decide) (by decide) (by decide)
  have h2 : (GetMerged enemW2 idebW2).result = Except.ok outW2 := by decide
  rw [hout] at h2
  injection h2 with h2
  subst h2
  exact ⟨hout, hprop⟩

/-- Student-row builder for the C3 witness table. -/
def enemRow3 (k : String) (age : ℚ) (uf : String) (nota : ℚ) : EnemRow :=
  { CO_ESCOLA := k, NU_IDADE := some age, TP_ESTADO_CIVIL := some 1,
    TP_ENSINO := some 1, SG_UF_RESIDENCIA := uf, NU_NOTA_TOT := some nota,
    Q005 := some 4 }

/-- Eight-row enem table for the C3 witness: two residence states with
four schools each; schools 04 and 12 are unmatched. -/
def enemW3 : List EnemRow :=
  [ enemRow3 ("01") 20 ("SP") 500, enemRow3 ("02") 21 ("SP") 510,
    enemRow3 ("03") 22 ("SP") 520, enemRow3 ("04") 23 ("SP") 530,
    enemRow3 ("09") 24 ("RJ") 540, enemRow3 ("10") 25 ("RJ") 550,
    enemRow3 ("11") 26 ("RJ") 560, enemRow3 ("12") 27 ("RJ") 570 ]

/-- Six-row ideb table for the C3 witness: the SP schools carry enrollment
indices with median 3, the RJ schools with median 20; the global median of
all six values is neither. -/
def idebW3 : List IdebRow :=
  [ { CO_ESCOLA := "01", IN_RENDIMENTO := some 1, NT_PADRONIZADA := none, IDEB := none }
  , { CO_ESCOLA := "02", IN_RENDIMENTO := some 3, NT_PADRONIZADA := none, IDEB := none }
  , { CO_ESCOLA := "03", IN_RENDIMENTO := some 5, NT_PADRONIZADA := none, IDEB := none }
  , { CO_ESCOLA := "09", IN_RENDIMENTO := some 10, NT_PADRONIZADA := none, IDEB := none }
  , { CO_ESCOLA := "10", IN_RENDIMENTO := some 20, NT_PADRONIZADA := none, IDEB := none }
  , { CO_ESCOLA := "11", IN_RENDIMENTO := some 30, NT_PADRONIZADA := none, IDEB := none } ]

/-- Output of GetMerged on the C3 witness tables. -/
def outW3 : List OutRow :=
  [ { NU_IDADE := some 20, TP_ESTADO_CIVIL := StrCell.ofNum 1,
      TP_ENSINO := StrCell.ofNum 1, SG_UF_RESIDENCIA := "SP",
      NU_NOTA_TOT := some 500, Q005 := some 4, IN_RENDIMENTO := some 1 }
  , { NU_IDADE := some 21, TP_ESTADO_CIVIL := StrCell.ofNum 1,
      TP_ENSINO := StrCell.ofNum 1, SG_UF_RESIDENCIA := "SP",
      NU_NOTA_TOT := some 510, Q005 := some 4, IN_RENDIMENTO := some 3 }
  , { NU_IDADE := some 22, TP_ESTADO_CIVIL := StrCell.ofNum 1,
      TP_ENSINO := StrCell.ofNum 1, SG_UF_RESIDENCIA := "SP",
      NU_NOTA_TOT := some 520, Q005 := some 4, IN_RENDIMENTO := some 5 }
  , { NU_IDADE := some 23, TP_ESTADO_CIVIL := StrCell.ofNum 1,
      TP_ENSINO := StrCell.ofNum 1, SG_UF_RESIDENCIA := "SP",
      NU_NOTA_TOT := some 530, Q005 := some 4, IN_RENDIMENTO := some 3 }
  , { NU_IDADE := some 24, TP_ESTADO_CIVIL := StrCell.ofNum 1,
      TP_ENSINO := StrCell.ofNum 1, SG_UF_RESIDENCIA := "RJ",
      NU_NOTA_TOT := some 540, Q005 := some 4, IN_RENDIMENTO := some 10 }
  , { NU_IDADE := some 25, TP_ESTADO_CIVIL := StrCell.ofNum 1,
      TP_ENSINO := StrCell.ofNum 1, SG_UF_RESIDENCIA := "RJ",
      NU_NOTA_TOT := some 550, Q005 := some 4, IN_RENDIMENTO := some 20 }
  , { NU_IDADE := some 26, TP_ESTADO_CIVIL := StrCell.ofNum 1,
      TP_ENSINO := StrCell.ofNum 1, SG_UF_RESIDENCIA := "RJ",
      NU_NOTA_TOT := some 560, Q005 := some 4, IN_RENDIMENTO := some 30 }
  , { NU_IDADE := some 27, TP_ESTADO_CIVIL := StrCell.ofNum 1,
      TP_ENSINO := StrCell.ofNum 1, SG_UF_RESIDENCIA := "RJ",
      NU_NOTA_TOT := some 570, Q005 := some 4, IN_RENDIMENTO := some 20 } ]

/-- Default output row used by the getD lookups of the C3 witness. -/
def outDummy : OutRow :=
  { NU_IDADE := none, TP_ESTADO_CIVIL := StrCell.nanStr, TP_ENSINO := StrCell.nanStr,
    SG_UF_RESIDENCIA := "", NU_NOTA_TOT := none, Q005 := none, IN_RENDIMENTO := none }

/-- Witness for C3 on the concrete tables enemW3 and idebW3: the null cell
of SP school 04 receives the SP median 3, the null cell of RJ school 12
receives the RJ median 20; the groups have distinct medians and neither
value is the global median. -/
theorem getMerged_rend_group_median_witness :
    (GetMerged enemW3 idebW3).result = Except.ok outW3 ∧
    outW3.length = (mergedTable enemW3 idebW3).length ∧
    (outW3.getD 3 outDummy).IN_RENDIMENTO = some 3 ∧
    (outW3.getD 7 outDummy).IN_RENDIMENTO = some 20 := by
  have h := getMerged_rend_group_median enemW3 idebW3 outW3 (by decide)
  exact ⟨by decide, h.1, by decide, by decide⟩
